import Mathlib

/-!
Verification of the pren prompt template engine.

This file gives a shallow embedding, in Lean, of the core of the pren
repository: the template grammar parser (`src/src/parser.rs`, a nom parser
combinator pipeline), the template data model and the reference-resolving
renderer (`src/pren-core/src/prompt.rs`), and the file-backed storage
operations relevant to the claims (`src/pren-core/src/file_storage.rs`).

Modelling conventions:
* Rust `&str` parsing state is a `List Char`; a nom parser `IResult<&str, T>`
  is `Option (T × List Char)` (`none` = recoverable error; `nom::Err` details
  are not needed by any claim).
* The nom combinators used by the source (`tag`, `take_until`,
  `take_while_m_n`, `delimited`, `alt`, `many0`, `all_consuming`, `verify`,
  `rest`) are embedded as the small executable functions below with exactly
  their nom semantics for complete input.
* `HashMap<String, String>` (render arguments) is embedded as
  `String → Option String` (its `get`); `HashSet<String>` (the visited set,
  whose elements are distinct by construction since `enter_prompt` refuses
  a name already present) as a `List String`.
* The storage collaborator of the renderer (`PromptStorage::get_prompt`,
  trait source absent, used as `Result<Prompt, Error>`) is embedded as
  `String → Option Prompt`; the renderer only distinguishes success from
  failure of the fetch.
* `render_internal` / `render_prompt_reference` are mutually recursive in
  Rust; termination there is enforced dynamically by the depth guard.  Here
  the recursion is stratified by an explicit `fuel` counter decremented at
  each nested reference resolution, keeping every definition structurally
  recursive (hence kernel-computable).  `render` supplies
  `MAX_NESTING_DEPTH + 1` fuel, which the depth guard in `enter_prompt`
  makes sufficient: an `enter_prompt` at depth ≥ 3 fails before recursing,
  so the `.fuelExhausted` branch is an unreachable modelling artifact for
  that fuel.
* Rust `RenderTemplateError { message: String }` builds its message strings
  with `format!`; the embedding keeps the same information structurally, one
  constructor per `format!` site, with `renderFailed` for the
  "Failed to render referenced prompt '..'" wrapper.
-/

namespace Pren

/-- Identifier characters, from `identifier` in `parser.rs`:
alphanumeric, dash or underscore. -/
def isIdentChar (c : Char) : Bool :=
  c.isAlphanum || c == '-' || c == '_'

/-- nom `tag(pat)`: consume the literal `pat` or fail. -/
def tagP (pat s : List Char) : Option (List Char) :=
  if pat.isPrefixOf s then some (s.drop pat.length) else none

/-- nom `take_until(pat)`: return everything strictly before the first
occurrence of `pat` (which is not consumed); fail if `pat` never occurs. -/
def takeUntilP (pat : List Char) : List Char → Option (List Char × List Char)
  | [] => if pat.isPrefixOf ([] : List Char) then some ([], []) else none
  | c :: rest =>
    if pat.isPrefixOf (c :: rest) then some ([], c :: rest)
    else
      match takeUntilP pat rest with
      | some (pre, suf) => some (c :: pre, suf)
      | none => none

/-- nom `take_while_m_n(m, n, p)`: greedily take up to `n` characters
satisfying `p`; fail if fewer than `m` were taken. -/
def takeWhileMN (m n : Nat) (p : Char → Bool) (s : List Char) :
    Option (List Char × List Char) :=
  let pre := (s.takeWhile p).take n
  if m ≤ pre.length then some (pre, s.drop pre.length) else none

/-- `identifier` from `parser.rs`: 1-64 identifier characters. -/
def identifier (s : List Char) : Option (List Char × List Char) :=
  takeWhileMN 1 64 isIdentChar s

/-- `PromptTemplatePart` from `prompt.rs`. -/
inductive PromptTemplatePart where
  | Literal (text : String)
  | Argument (name : String)
  | PromptReference (name : String)
  | VariablePromptReference (name : String)
deriving DecidableEq

/-- `parse_escaped_literal` from `parser.rs`:
`delimited(tag("{{{{"), take_until("}}}}"), tag("}}}}"))`. -/
def parse_escaped_literal (s : List Char) : Option (List Char × List Char) :=
  match tagP "\x7b\x7b\x7b\x7b".data s with
  | none => none
  | some s1 =>
    match takeUntilP "\x7d\x7d\x7d\x7d".data s1 with
    | none => none
    | some (inner, s2) =>
      match tagP "\x7d\x7d\x7d\x7d".data s2 with
      | none => none
      | some s3 => some (inner, s3)

/-- `parse_prompt_reference` from `parser.rs`:
`delimited(tag("{{prompt:"), identifier, tag("}}"))`. -/
def parse_prompt_reference (s : List Char) : Option (List Char × List Char) :=
  match tagP "\x7b\x7bprompt:".data s with
  | none => none
  | some s1 =>
    match identifier s1 with
    | none => none
    | some (ident, s2) =>
      match tagP "\x7d\x7d".data s2 with
      | none => none
      | some s3 => some (ident, s3)

/-- Modelled from the spec: the parser module of the current crate
(`pren-core/src/parser.rs`, declared in `pren-core/src/lib.rs`) is not among
the provided sources; only the older `src/src/parser.rs` snapshot is, and it
predates variable prompt references.  This is token precedence rule 3 of
spec §4.1 / the grammar table of §6: `{{prompt_var:` IDENT `}}` →
`VariablePromptReference(IDENT)`, in the same `delimited` shape as
`parse_prompt_reference`. -/
def parse_variable_prompt_reference (s : List Char) :
    Option (List Char × List Char) :=
  match tagP "\x7b\x7bprompt_var:".data s with
  | none => none
  | some s1 =>
    match identifier s1 with
    | none => none
    | some (ident, s2) =>
      match tagP "\x7d\x7d".data s2 with
      | none => none
      | some s3 => some (ident, s3)

/-- `parse_argument` from `parser.rs`:
`delimited(tag("{{"), identifier, tag("}}"))`. -/
def parse_argument (s : List Char) : Option (List Char × List Char) :=
  match tagP "\x7b\x7b".data s with
  | none => none
  | some s1 =>
    match identifier s1 with
    | none => none
    | some (ident, s2) =>
      match tagP "\x7d\x7d".data s2 with
      | none => none
      | some s3 => some (ident, s3)

/-- `parse_literal_text` from `parser.rs`:
`verify(alt((take_until("{{"), rest)), nonempty)`. -/
def parse_literal_text (s : List Char) : Option (List Char × List Char) :=
  match takeUntilP "\x7b\x7b".data s with
  | some (pre, suf) => if pre = [] then none else some (pre, suf)
  | none => if s = [] then none else some (s, [])

/-- `parse_element` from `parser.rs`: `alt` over the five constructs in
precedence order (escaped literal, prompt reference, variable prompt
reference, argument, literal run). -/
def parse_element (s : List Char) : Option (PromptTemplatePart × List Char) :=
  match parse_escaped_literal s with
  | some (t, r) => some (.Literal ⟨t⟩, r)
  | none =>
    match parse_prompt_reference s with
    | some (n, r) => some (.PromptReference ⟨n⟩, r)
    | none =>
      match parse_variable_prompt_reference s with
      | some (n, r) => some (.VariablePromptReference ⟨n⟩, r)
      | none =>
        match parse_argument s with
        | some (n, r) => some (.Argument ⟨n⟩, r)
        | none =>
          match parse_literal_text s with
          | some (t, r) => some (.Literal ⟨t⟩, r)
          | none => none

/-- nom `many0(parse_element)` followed by the `all_consuming` check of
`parse_template`: collect elements until `parse_element` fails, then require
the remainder to be empty.  Every successful `parse_element` consumes at
least one character, so fuel `input.length + 1` (supplied by
`parse_template`) never runs out before the input is exhausted. -/
def parse_parts : Nat → List Char → Option (List PromptTemplatePart)
  | 0, _ => none
  | fuel + 1, s =>
    match parse_element s with
    | some (part, rest) =>
      match parse_parts fuel rest with
      | some parts => some (part :: parts)
      | none => none
    | none => if s = [] then some [] else none

/-- `parse_template` from `parser.rs`:
`all_consuming(map(many0(parse_element), ...))`. -/
def parse_template (s : String) : Option (List PromptTemplatePart) :=
  parse_parts (s.data.length + 1) s.data

/-- `PromptMetadata` from `prompt.rs`. -/
structure PromptMetadata where
  name : String
  description : Option String
  tags : List String
deriving DecidableEq

/-- `Prompt` from `prompt.rs`. -/
structure Prompt where
  metadata : PromptMetadata
  content : String
deriving DecidableEq

/-- `PromptTemplate` from `prompt.rs`. -/
structure PromptTemplate where
  prompt : Prompt
  parts : List PromptTemplatePart
deriving DecidableEq

/-- `PromptTemplate::new` from `prompt.rs`: parse the prompt's content;
a parse error of any kind becomes `none`. -/
def PromptTemplate.new (p : Prompt) : Option PromptTemplate :=
  match parse_template p.content with
  | some parts => some ⟨p, parts⟩
  | none => none

/-- The render-time error causes of `prompt.rs` / spec §7, one constructor
per `format!` site of `RenderTemplateError`; `renderFailed` is the
"Failed to render referenced prompt '..': .." wrapper, `referenceNotFound`
the "Error retrieving referenced prompt" case, `referenceParseFailed` the
"Error parsing referenced prompt" case.  `fuelExhausted` is a modelling
artifact of the fuelled recursion, unreachable from `render`. -/
inductive RenderTemplateError where
  | missingArgument (name : String)
  | circularReference (name : String)
  | maxDepthExceeded
  | referenceNotFound (name : String)
  | referenceParseFailed (name : String)
  | renderFailed (name : String) (inner : RenderTemplateError)
  | fuelExhausted
deriving DecidableEq

/-- `MAX_NESTING_DEPTH` from `prompt.rs`. -/
def MAX_NESTING_DEPTH : Nat := 3

/-- `RenderValidationContext` from `prompt.rs`. -/
structure RenderValidationContext where
  visited_prompts : List String
  current_depth : Nat
deriving DecidableEq

/-- `RenderValidationContext::new` from `prompt.rs`. -/
def RenderValidationContext.new : RenderValidationContext := ⟨[], 0⟩

/-- `RenderValidationContext::enter_prompt` from `prompt.rs`: circular
reference check first, then the depth limit, then register the prompt. -/
def enter_prompt (ctx : RenderValidationContext) (prompt_name : String) :
    Except RenderTemplateError RenderValidationContext :=
  if prompt_name ∈ ctx.visited_prompts then
    .error (.circularReference prompt_name)
  else if MAX_NESTING_DEPTH ≤ ctx.current_depth then
    .error .maxDepthExceeded
  else
    .ok ⟨prompt_name :: ctx.visited_prompts, ctx.current_depth + 1⟩

/-- `RenderValidationContext::exit_prompt` from `prompt.rs`. -/
def exit_prompt (ctx : RenderValidationContext) (prompt_name : String) :
    RenderValidationContext :=
  ⟨ctx.visited_prompts.erase prompt_name, ctx.current_depth - 1⟩

/-- The render arguments map (`&HashMap<String, String>`), by its `get`. -/
abbrev Args : Type := String → Option String

/-- The storage collaborator, by its `get_prompt` (success or failure). -/
abbrev Storage : Type := String → Option Prompt

/-- The part-by-part loop of `render_internal` from `prompt.rs`, with the
resolution of one reference (`render_prompt_reference`, which carries the
mutual recursion) abstracted as `refHandler`.  The result string is built by
prepending each part's output to the rendering of the remaining parts,
which yields the same string, error and final context as the Rust
accumulator loop with early return. -/
def render_parts_loop (args : Args)
    (refHandler : String → RenderValidationContext → Bool →
      Except RenderTemplateError String × RenderValidationContext) :
    List PromptTemplatePart → RenderValidationContext →
      Except RenderTemplateError String × RenderValidationContext
  | [], ctx => (.ok "", ctx)
  | .Literal text :: rest, ctx =>
    match render_parts_loop args refHandler rest ctx with
    | (.ok s, c) => (.ok (text ++ s), c)
    | (.error e, c) => (.error e, c)
  | .Argument nm :: rest, ctx =>
    match args nm with
    | some v =>
      match render_parts_loop args refHandler rest ctx with
      | (.ok s, c) => (.ok (v ++ s), c)
      | (.error e, c) => (.error e, c)
    | none => (.error (.missingArgument nm), ctx)
  | .PromptReference nm :: rest, ctx =>
    match refHandler nm ctx false with
    | (.ok s1, c1) =>
      match render_parts_loop args refHandler rest c1 with
      | (.ok s2, c2) => (.ok (s1 ++ s2), c2)
      | (.error e, c2) => (.error e, c2)
    | (.error e, c1) => (.error e, c1)
  | .VariablePromptReference nm :: rest, ctx =>
    match args nm with
    | some v =>
      match refHandler v ctx true with
      | (.ok s1, c1) =>
        match render_parts_loop args refHandler rest c1 with
        | (.ok s2, c2) => (.ok (s1 ++ s2), c2)
        | (.error e, c2) => (.error e, c2)
      | (.error e, c1) => (.error e, c1)
    | none => (.error (.missingArgument nm), ctx)

/-- The body of `render_prompt_reference` from `prompt.rs`, with the
recursive call to `render_internal` abstracted as `recur`: enter the
validation context, fetch and parse the referenced prompt, render it, and
exit the context on every path except a successful variable reference
(`prompt.rs` lines 332-337: on success, `exit_prompt` runs only when
`!is_variable_reference`; the comment defers to the caller, which in the
source never exits). -/
def render_prompt_reference_body (storage : Storage)
    (recur : List PromptTemplatePart → RenderValidationContext →
      Except RenderTemplateError String × RenderValidationContext)
    (prompt_name : String) (ctx : RenderValidationContext)
    (is_variable_reference : Bool) :
    Except RenderTemplateError String × RenderValidationContext :=
  match enter_prompt ctx prompt_name with
  | .error e => (.error e, ctx)
  | .ok ctx1 =>
    match storage prompt_name with
    | none => (.error (.referenceNotFound prompt_name), exit_prompt ctx1 prompt_name)
    | some p =>
      match PromptTemplate.new p with
      | none => (.error (.referenceParseFailed prompt_name), exit_prompt ctx1 prompt_name)
      | some template =>
        match recur template.parts ctx1 with
        | (.ok rendered, ctx2) =>
          if is_variable_reference then (.ok rendered, ctx2)
          else (.ok rendered, exit_prompt ctx2 prompt_name)
        | (.error e, ctx2) =>
          (.error (.renderFailed prompt_name e), exit_prompt ctx2 prompt_name)

/-- Reference handler used at fuel 0: the `enter_prompt` guards still apply,
then the modelling artifact `.fuelExhausted` (unreachable from `render`,
whose fuel outlasts the depth guard). -/
def render_out_of_fuel (prompt_name : String) (ctx : RenderValidationContext)
    (_is_variable_reference : Bool) :
    Except RenderTemplateError String × RenderValidationContext :=
  match enter_prompt ctx prompt_name with
  | .error e => (.error e, ctx)
  | .ok ctx1 => (.error .fuelExhausted, ctx1)

/-- `render_internal` from `prompt.rs`, stratified by fuel: the part loop
where each reference resolution runs `render_prompt_reference` with one
less fuel for its nested `render_internal`. -/
def render_internal (storage : Storage) (args : Args) :
    Nat → List PromptTemplatePart → RenderValidationContext →
      Except RenderTemplateError String × RenderValidationContext
  | 0 => render_parts_loop args render_out_of_fuel
  | fuel + 1 =>
    render_parts_loop args
      (render_prompt_reference_body storage (render_internal storage args fuel))

/-- `render_prompt_reference` from `prompt.rs`, stratified by fuel. -/
def render_prompt_reference (storage : Storage) (args : Args) :
    Nat → String → RenderValidationContext → Bool →
      Except RenderTemplateError String × RenderValidationContext
  | 0 => render_out_of_fuel
  | fuel + 1 =>
    render_prompt_reference_body storage (render_internal storage args fuel)

/-- `PromptTemplate::render` from `prompt.rs`: a fresh
`RenderValidationContext` per top-level call, then `render_internal`.
Fuel `MAX_NESTING_DEPTH + 1` is enough for the depth guard to fire before
the fuel runs out. -/
def render (template_parts : List PromptTemplatePart) (args : Args)
    (storage : Storage) : Except RenderTemplateError String :=
  (render_internal storage args (MAX_NESTING_DEPTH + 1) template_parts
    RenderValidationContext.new).1

/-- `FileStorageError` from `file_storage.rs`.  Payloads of the external
library errors (`io::Error`, `serde_frontmatter::SerdeFMError`,
`ParseTemplateError`) are not needed by any claim and are omitted. -/
inductive FileStorageError where
  | ioError
  | serializationError
  | invalidBasePath (path : String)
  | promptNotFound (path : String)
  | invalidPromptType (prompt_type : String)
  | parseTemplateFailed
deriving DecidableEq

/-- `FileStorage` from `file_storage.rs`. -/
structure FileStorage where
  base_path : String
deriving DecidableEq

/-- The file system seen by `FileStorage`: file contents by path. -/
abbrev FileSys : Type := String → Option String

/-- `self.base_path.join(format!("\x7b\x7d.md", name))` from
`file_storage.rs`, with `/` as the path separator. -/
def prompt_file_path (st : FileStorage) (name : String) : String :=
  st.base_path ++ "/" ++ name ++ ".md"

/-- Rust `str::trim_start` (used on the deserialized content in
`get_prompt`): drop leading whitespace.  `Char.isWhitespace` is the ASCII
fragment of Rust's Unicode `char::is_whitespace`; no claim distinguishes
them. -/
def rust_trim_start (s : String) : String :=
  ⟨s.data.dropWhile Char.isWhitespace⟩

/-- `FileStorage::save_prompt` from `file_storage.rs`: write
`serde_frontmatter::serialize(metadata, content)` to `<base>/<name>.md`,
overwriting.  The external serializer is the parameter `ser`; directory
creation and I/O failure are not modelled (the claims concern the
round-trip after a successful save). -/
def FileStorage.save_prompt (ser : PromptMetadata → String → String)
    (st : FileStorage) (fs : FileSys) (p : Prompt) : FileSys :=
  fun path =>
    if path = prompt_file_path st p.metadata.name then
      some (ser p.metadata p.content)
    else fs path

/-- `FileStorage::get_prompt` from `file_storage.rs`: if `<base>/<name>.md`
does not exist, `PromptNotFound(path)`; otherwise read it, run
`serde_frontmatter::deserialize` (the parameter `deser`; its failure is the
`SerializationError` case), and `trim_start` the raw content. -/
def FileStorage.get_prompt (deser : String → Option (PromptMetadata × String))
    (st : FileStorage) (fs : FileSys) (name : String) :
    Except FileStorageError Prompt :=
  match fs (prompt_file_path st name) with
  | none => .error (.promptNotFound (prompt_file_path st name))
  | some content =>
    match deser content with
    | none => .error .serializationError
    | some (metadata, raw_content) => .ok ⟨metadata, rust_trim_start raw_content⟩

/-! Helper lemmas. -/

/-- Unfolding `render_internal` at positive fuel resolves references through
`render_prompt_reference` at the same fuel. -/
theorem render_internal_succ (storage : Storage) (args : Args) (fuel : Nat) :
    render_internal storage args (fuel + 1) =
      render_parts_loop args (render_prompt_reference storage args (fuel + 1)) :=
  rfl

theorem string_mk_append (a b : List Char) :
    String.mk a ++ String.mk b = String.mk (a ++ b) := rfl

theorem string_append_empty_right (s : String) : s ++ "" = s := by
  obtain ⟨l⟩ := s
  exact congrArg String.mk (List.append_nil l)

theorem string_append_assoc (a b c : String) : a ++ b ++ c = a ++ (b ++ c) := by
  obtain ⟨la⟩ := a
  obtain ⟨lb⟩ := b
  obtain ⟨lc⟩ := c
  exact congrArg String.mk (List.append_assoc la lb lc)

theorem takeWhile_all {p : Char → Bool} {l : List Char} (h : l.all p = true) :
    l.takeWhile p = l :=
  List.takeWhile_eq_self_iff.mpr (List.all_eq_true.mp h)

theorem dropWhile_head_not {p : Char → Bool} :
    ∀ {l : List Char} {c : Char} {cs : List Char},
      l.dropWhile p = c :: cs → p c = false := by
  intro l
  induction l with
  | nil => intro c cs h; simp [List.dropWhile] at h
  | cons a l ih =>
    intro c cs h
    rw [List.dropWhile_cons] at h
    by_cases hp : p a = true
    · rw [if_pos hp] at h
      exact ih h
    · rw [if_neg hp] at h
      injection h with h1 _
      subst h1
      simpa using hp

theorem takeUntilP_eq_none (pat : List Char) :
    ∀ l : List Char, (∀ i, pat.isPrefixOf (l.drop i) = false) →
      takeUntilP pat l = none := by
  intro l
  induction l with
  | nil =>
    intro h
    have h0 : pat.isPrefixOf ([] : List Char) = false := by simpa using h 0
    simp [takeUntilP, h0]
  | cons c rest ih =>
    intro h
    have h0 : pat.isPrefixOf (c :: rest) = false := by simpa using h 0
    have hrec := ih fun i => by simpa [List.drop_succ_cons] using h (i + 1)
    simp [takeUntilP, h0, hrec]

theorem takeUntilP_first (pat : List Char) :
    ∀ (i : Nat) (s : List Char), pat.isPrefixOf (s.drop i) = true →
      (∀ j, j < i → pat.isPrefixOf (s.drop j) = false) →
      takeUntilP pat s = some (s.take i, s.drop i) := by
  intro i
  induction i with
  | zero =>
    intro s h1 _
    cases s with
    | nil =>
      have h1' : pat.isPrefixOf ([] : List Char) = true := by simpa using h1
      simp [takeUntilP, h1']
    | cons c rest =>
      have h1' : pat.isPrefixOf (c :: rest) = true := by simpa using h1
      simp [takeUntilP, h1']
  | succ n ih =>
    intro s h1 h2
    cases s with
    | nil =>
      have ha : pat.isPrefixOf ([] : List Char) = true := by simpa using h1
      have hb : pat.isPrefixOf ([] : List Char) = false := by
        simpa using h2 0 (Nat.succ_pos n)
      rw [ha] at hb
      exact Bool.noConfusion hb
    | cons c rest =>
      have h0 : pat.isPrefixOf (c :: rest) = false := by
        simpa using h2 0 (Nat.succ_pos n)
      have hrec := ih rest (by simpa [List.drop_succ_cons] using h1)
        fun j hj => by
          simpa [List.drop_succ_cons] using h2 (j + 1) (Nat.succ_lt_succ hj)
      simp [takeUntilP, h0, hrec, List.take_succ_cons, List.drop_succ_cons]

theorem tagP_append (pat s : List Char) : tagP pat (pat ++ s) = some s := by
  rw [tagP, if_pos (List.isPrefixOf_iff_prefix.mpr (List.prefix_append pat s)),
    List.drop_left]

/-- A pattern containing a non-identifier character is never a prefix of a
list of identifier characters. -/
theorem isPrefixOf_false_of_bad_mem {pat t : List Char} (c : Char)
    (hcmem : c ∈ pat) (hcbad : isIdentChar c = false)
    (ht : t.all isIdentChar = true) : pat.isPrefixOf t = false := by
  rw [Bool.eq_false_iff]
  intro htrue
  have hpre := List.isPrefixOf_iff_prefix.mp htrue
  have hmem : c ∈ t := hpre.subset hcmem
  have hid := List.all_eq_true.mp ht c hmem
  rw [hcbad] at hid
  exact Bool.noConfusion hid

theorem tagP_eq_none_of_not_prefix {pat s : List Char}
    (h : ¬ (pat.isPrefixOf s = true)) : tagP pat s = none := by
  rw [tagP, if_neg h]

theorem all_drop {p : Char → Bool} {l : List Char} (h : l.all p = true)
    (i : Nat) : (l.drop i).all p = true :=
  List.all_eq_true.mpr fun x hx => List.all_eq_true.mp h x (List.drop_subset i l hx)

/-- `identifier` on a nonempty all-identifier input takes up to 64
characters greedily. -/
theorem identifier_all_ident {t : List Char} (ht : t.all isIdentChar = true)
    (hne : t ≠ []) :
    identifier t = some (t.take 64, t.drop (min 64 t.length)) := by
  have hlen : 1 ≤ t.length := List.length_pos.mpr hne
  simp only [identifier, takeWhileMN, takeWhile_all ht, List.length_take]
  rw [if_pos (Nat.le_min.mpr ⟨by norm_num, hlen⟩)]

/-- No element of the `alt` in `parse_element` accepts `"\x7b\x7b"` followed
by identifier characters only: the construct opened by the braces is never
closed, and the literal rule cannot fire at a position starting with
`"\x7b\x7b"`. -/
theorem parse_element_unclosed_arg {t : List Char}
    (ht : t.all isIdentChar = true) :
    parse_element ('\x7b' :: '\x7b' :: t) = none := by
  have hlb : isIdentChar '\x7b' = false := by decide
  have hrb : isIdentChar '\x7d' = false := by decide
  have h1 : parse_escaped_literal ('\x7b' :: '\x7b' :: t) = none := by
    have hnp : ¬ ("\x7b\x7b\x7b\x7b".data.isPrefixOf ('\x7b' :: '\x7b' :: t) = true) := by
      intro htrue
      have hpre := List.isPrefixOf_iff_prefix.mp htrue
      rw [show "\x7b\x7b\x7b\x7b".data =
        '\x7b' :: '\x7b' :: '\x7b' :: '\x7b' :: ([] : List Char) from rfl] at hpre
      rw [List.cons_prefix_cons] at hpre
      obtain ⟨-, hpre⟩ := hpre
      rw [List.cons_prefix_cons] at hpre
      obtain ⟨-, hpre⟩ := hpre
      have hmem : '\x7b' ∈ t := hpre.subset (by simp)
      have hid := List.all_eq_true.mp ht _ hmem
      rw [hlb] at hid
      exact Bool.noConfusion hid
    simp only [parse_escaped_literal, tagP_eq_none_of_not_prefix hnp]
  have h2 : parse_prompt_reference ('\x7b' :: '\x7b' :: t) = none := by
    have hnp : ¬ ("\x7b\x7bprompt:".data.isPrefixOf ('\x7b' :: '\x7b' :: t) = true) := by
      intro htrue
      have hpre := List.isPrefixOf_iff_prefix.mp htrue
      rw [show "\x7b\x7bprompt:".data = '\x7b' :: '\x7b' ::
        'p' :: 'r' :: 'o' :: 'm' :: 'p' :: 't' :: ':' :: ([] : List Char) from rfl] at hpre
      rw [List.cons_prefix_cons] at hpre
      obtain ⟨-, hpre⟩ := hpre
      rw [List.cons_prefix_cons] at hpre
      obtain ⟨-, hpre⟩ := hpre
      have hmem : ':' ∈ t := hpre.subset (by decide)
      have hid := List.all_eq_true.mp ht _ hmem
      rw [show isIdentChar ':' = false from by decide] at hid
      exact Bool.noConfusion hid
    simp only [parse_prompt_reference, tagP_eq_none_of_not_prefix hnp]
  have h3 : parse_variable_prompt_reference ('\x7b' :: '\x7b' :: t) = none := by
    have hnp : ¬ ("\x7b\x7bprompt_var:".data.isPrefixOf ('\x7b' :: '\x7b' :: t) = true) := by
      intro htrue
      have hpre := List.isPrefixOf_iff_prefix.mp htrue
      rw [show "\x7b\x7bprompt_var:".data = '\x7b' :: '\x7b' ::
        'p' :: 'r' :: 'o' :: 'm' :: 'p' :: 't' :: '_' :: 'v' :: 'a' :: 'r' :: ':' ::
        ([] : List Char) from rfl] at hpre
      rw [List.cons_prefix_cons] at hpre
      obtain ⟨-, hpre⟩ := hpre
      rw [List.cons_prefix_cons] at hpre
      obtain ⟨-, hpre⟩ := hpre
      have hmem : ':' ∈ t := hpre.subset (by decide)
      have hid := List.all_eq_true.mp ht _ hmem
      rw [show isIdentChar ':' = false from by decide] at hid
      exact Bool.noConfusion hid
    simp only [parse_variable_prompt_reference, tagP_eq_none_of_not_prefix hnp]
  have h4 : parse_argument ('\x7b' :: '\x7b' :: t) = none := by
    have htag : tagP "\x7b\x7b".data ('\x7b' :: '\x7b' :: t) = some t :=
      tagP_append "\x7b\x7b".data t
    cases t with
    | nil => simp [parse_argument, htag, identifier, takeWhileMN]
    | cons c0 t0 =>
      have hident := identifier_all_ident ht (by simp)
      rcases le_or_lt (c0 :: t0).length 64 with hle | hgt
      · have hmin : min 64 (c0 :: t0).length = (c0 :: t0).length :=
          Nat.min_eq_right hle
        have hdrop : (c0 :: t0).drop (min 64 (c0 :: t0).length) = [] := by
          rw [hmin, List.drop_length]
        have htagfail : tagP "\x7d\x7d".data ([] : List Char) = none := by decide
        simp only [parse_argument, htag, hident, hdrop, htagfail]
      · have hmin : min 64 (c0 :: t0).length = 64 := Nat.min_eq_left (Nat.le_of_lt hgt)
        cases hd : (c0 :: t0).drop 64 with
        | nil =>
          exfalso
          have hld := List.length_drop 64 (c0 :: t0)
          rw [hd] at hld
          rw [List.length_nil] at hld
          omega
        | cons d ds =>
          have hdmem : d ∈ c0 :: t0 :=
            List.drop_subset 64 (c0 :: t0) (hd ▸ List.mem_cons_self d ds)
          have hdid := List.all_eq_true.mp ht d hdmem
          have htagfail : tagP "\x7d\x7d".data (d :: ds) = none := by
            apply tagP_eq_none_of_not_prefix
            intro htrue
            have hpre := List.isPrefixOf_iff_prefix.mp htrue
            rw [show "\x7d\x7d".data = '\x7d' :: '\x7d' :: ([] : List Char) from rfl] at hpre
            rw [List.cons_prefix_cons] at hpre
            obtain ⟨heq, -⟩ := hpre
            rw [← heq] at hdid
            rw [hrb] at hdid
            exact Bool.noConfusion hdid
          simp only [parse_argument, htag, hident, hmin, hd, htagfail]
  have h5 : parse_literal_text ('\x7b' :: '\x7b' :: t) = none := by
    have hfirst : takeUntilP "\x7b\x7b".data ('\x7b' :: '\x7b' :: t) =
        some ([], '\x7b' :: '\x7b' :: t) := by
      have := takeUntilP_first "\x7b\x7b".data 0 ('\x7b' :: '\x7b' :: t)
        (List.isPrefixOf_iff_prefix.mpr (by simp [List.cons_prefix_cons]))
        (fun j hj => absurd hj (Nat.not_lt_zero j))
      simpa using this
    simp [parse_literal_text, hfirst]
  simp only [parse_element, h1, h2, h3, h4, h5]

/-- `parse_template` rejects an input that is `"\x7b\x7b"` followed by
identifier characters only (an argument or reference missing its closing
braces): `all_consuming` sees a nonempty remainder. -/
theorem parse_template_unclosed_arg {t : List Char}
    (ht : t.all isIdentChar = true) :
    parse_template ⟨'\x7b' :: '\x7b' :: t⟩ = none := by
  show parse_parts (('\x7b' :: '\x7b' :: t).length + 1) ('\x7b' :: '\x7b' :: t) = none
  simp [parse_parts, parse_element_unclosed_arg ht]

/-- No element of the `alt` in `parse_element` accepts `"\x7b\x7b\x7b\x7b"`
followed by identifier characters only: the escaped literal opened by the
four braces is never terminated by `"\x7d\x7d\x7d\x7d"`. -/
theorem parse_element_unclosed_escaped {t : List Char}
    (ht : t.all isIdentChar = true) :
    parse_element ('\x7b' :: '\x7b' :: '\x7b' :: '\x7b' :: t) = none := by
  have hlb : isIdentChar '\x7b' = false := by decide
  have h1 : parse_escaped_literal ('\x7b' :: '\x7b' :: '\x7b' :: '\x7b' :: t) = none := by
    have htag : tagP "\x7b\x7b\x7b\x7b".data ('\x7b' :: '\x7b' :: '\x7b' :: '\x7b' :: t) =
        some t := tagP_append "\x7b\x7b\x7b\x7b".data t
    have hnone : takeUntilP "\x7d\x7d\x7d\x7d".data t = none := by
      apply takeUntilP_eq_none
      intro i
      exact isPrefixOf_false_of_bad_mem '\x7d' (by decide) (by decide) (all_drop ht i)
    simp only [parse_escaped_literal, htag, hnone]
  have h2 : parse_prompt_reference ('\x7b' :: '\x7b' :: '\x7b' :: '\x7b' :: t) = none := by
    have hnp : ¬ ("\x7b\x7bprompt:".data.isPrefixOf
        ('\x7b' :: '\x7b' :: '\x7b' :: '\x7b' :: t) = true) := by
      intro htrue
      have hpre := List.isPrefixOf_iff_prefix.mp htrue
      rw [show "\x7b\x7bprompt:".data = '\x7b' :: '\x7b' ::
        'p' :: 'r' :: 'o' :: 'm' :: 'p' :: 't' :: ':' :: ([] : List Char) from rfl] at hpre
      rw [List.cons_prefix_cons] at hpre
      obtain ⟨-, hpre⟩ := hpre
      rw [List.cons_prefix_cons] at hpre
      obtain ⟨-, hpre⟩ := hpre
      rw [List.cons_prefix_cons] at hpre
      obtain ⟨hpc, -⟩ := hpre
      exact absurd hpc (by decide)
    simp only [parse_prompt_reference, tagP_eq_none_of_not_prefix hnp]
  have h3 : parse_variable_prompt_reference
      ('\x7b' :: '\x7b' :: '\x7b' :: '\x7b' :: t) = none := by
    have hnp : ¬ ("\x7b\x7bprompt_var:".data.isPrefixOf
        ('\x7b' :: '\x7b' :: '\x7b' :: '\x7b' :: t) = true) := by
      intro htrue
      have hpre := List.isPrefixOf_iff_prefix.mp htrue
      rw [show "\x7b\x7bprompt_var:".data = '\x7b' :: '\x7b' ::
        'p' :: 'r' :: 'o' :: 'm' :: 'p' :: 't' :: '_' :: 'v' :: 'a' :: 'r' :: ':' ::
        ([] : List Char) from rfl] at hpre
      rw [List.cons_prefix_cons] at hpre
      obtain ⟨-, hpre⟩ := hpre
      rw [List.cons_prefix_cons] at hpre
      obtain ⟨-, hpre⟩ := hpre
      rw [List.cons_prefix_cons] at hpre
      obtain ⟨hpc, -⟩ := hpre
      exact absurd hpc (by decide)
    simp only [parse_variable_prompt_reference, tagP_eq_none_of_not_prefix hnp]
  have h4 : parse_argument ('\x7b' :: '\x7b' :: '\x7b' :: '\x7b' :: t) = none := by
    have htag : tagP "\x7b\x7b".data ('\x7b' :: '\x7b' :: '\x7b' :: '\x7b' :: t) =
        some ('\x7b' :: '\x7b' :: t) := tagP_append "\x7b\x7b".data ('\x7b' :: '\x7b' :: t)
    have hident : identifier ('\x7b' :: '\x7b' :: t) = none := by
      simp [identifier, takeWhileMN, List.takeWhile_cons, hlb]
    simp only [parse_argument, htag, hident]
  have h5 : parse_literal_text ('\x7b' :: '\x7b' :: '\x7b' :: '\x7b' :: t) = none := by
    have hfirst : takeUntilP "\x7b\x7b".data ('\x7b' :: '\x7b' :: '\x7b' :: '\x7b' :: t) =
        some ([], '\x7b' :: '\x7b' :: '\x7b' :: '\x7b' :: t) := by
      have := takeUntilP_first "\x7b\x7b".data 0 ('\x7b' :: '\x7b' :: '\x7b' :: '\x7b' :: t)
        (List.isPrefixOf_iff_prefix.mpr (by simp [List.cons_prefix_cons]))
        (fun j hj => absurd hj (Nat.not_lt_zero j))
      simpa using this
    simp [parse_literal_text, hfirst]
  simp only [parse_element, h1, h2, h3, h4, h5]

/-- `parse_template` rejects an unterminated escaped literal. -/
theorem parse_template_unclosed_escaped {t : List Char}
    (ht : t.all isIdentChar = true) :
    parse_template ⟨'\x7b' :: '\x7b' :: '\x7b' :: '\x7b' :: t⟩ = none := by
  show parse_parts (('\x7b' :: '\x7b' :: '\x7b' :: '\x7b' :: t).length + 1)
    ('\x7b' :: '\x7b' :: '\x7b' :: '\x7b' :: t) = none
  simp [parse_parts, parse_element_unclosed_escaped ht]

/-- `parse_escaped_literal` takes exactly the shortest span up to the first
`"\x7d\x7d\x7d\x7d"`: if the terminator first occurs right after `t`, the
emitted literal is exactly `t` (without the surrounding braces) and the
remainder is what follows the terminator. -/
theorem parse_escaped_literal_shortest_span (t r : List Char)
    (h : ∀ j, j < t.length → ("\x7d\x7d\x7d\x7d".data).isPrefixOf
      ((t ++ ("\x7d\x7d\x7d\x7d".data ++ r)).drop j) = false) :
    parse_escaped_literal
      ("\x7b\x7b\x7b\x7b".data ++ (t ++ ("\x7d\x7d\x7d\x7d".data ++ r))) =
      some (t, r) := by
  have hfirst : takeUntilP "\x7d\x7d\x7d\x7d".data (t ++ ("\x7d\x7d\x7d\x7d".data ++ r)) =
      some (t, "\x7d\x7d\x7d\x7d".data ++ r) := by
    have h1 : ("\x7d\x7d\x7d\x7d".data).isPrefixOf
        ((t ++ ("\x7d\x7d\x7d\x7d".data ++ r)).drop t.length) = true := by
      rw [List.drop_left]
      exact List.isPrefixOf_iff_prefix.mpr (List.prefix_append _ _)
    have := takeUntilP_first "\x7d\x7d\x7d\x7d".data t.length
      (t ++ ("\x7d\x7d\x7d\x7d".data ++ r)) h1 h
    rw [List.take_left, List.drop_left] at this
    exact this
  simp only [parse_escaped_literal, tagP_append, hfirst]

theorem enter_prompt_visited (ctx : RenderValidationContext) (name : String)
    (h : name ∈ ctx.visited_prompts) :
    enter_prompt ctx name = .error (.circularReference name) := by
  rw [enter_prompt, if_pos h]

theorem enter_prompt_depth_exceeded (ctx : RenderValidationContext)
    (name : String) (h1 : name ∉ ctx.visited_prompts)
    (h2 : MAX_NESTING_DEPTH ≤ ctx.current_depth) :
    enter_prompt ctx name = .error .maxDepthExceeded := by
  rw [enter_prompt, if_neg h1, if_pos h2]

theorem enter_prompt_below_depth (ctx : RenderValidationContext)
    (name : String) (h1 : name ∉ ctx.visited_prompts)
    (h2 : ctx.current_depth < MAX_NESTING_DEPTH) :
    enter_prompt ctx name =
      .ok ⟨name :: ctx.visited_prompts, ctx.current_depth + 1⟩ := by
  rw [enter_prompt, if_neg h1, if_neg (Nat.not_le.mpr h2)]

theorem render_prompt_reference_visited (storage : Storage) (args : Args)
    (fuel : Nat) (name : String) (ctx : RenderValidationContext)
    (is_var : Bool) (h : name ∈ ctx.visited_prompts) :
    render_prompt_reference storage args fuel name ctx is_var =
      (.error (.circularReference name), ctx) := by
  cases fuel with
  | zero =>
    simp [render_prompt_reference, render_out_of_fuel,
      enter_prompt_visited ctx name h]
  | succ n =>
    simp [render_prompt_reference, render_prompt_reference_body,
      enter_prompt_visited ctx name h]

theorem render_parts_loop_hello (args : Args)
    (refH : String → RenderValidationContext → Bool →
      Except RenderTemplateError String × RenderValidationContext)
    (ctx : RenderValidationContext) (v : String) (h : args "name" = some v) :
    render_parts_loop args refH
      [.Literal "Hello ", .Argument "name", .Literal "!"] ctx =
      (.ok ("Hello " ++ v ++ "!"), ctx) := by
  simp [render_parts_loop, h, string_append_empty_right, string_append_assoc]

theorem render_parts_loop_hello_missing (args : Args)
    (refH : String → RenderValidationContext → Bool →
      Except RenderTemplateError String × RenderValidationContext)
    (ctx : RenderValidationContext) (h : args "name" = none) :
    render_parts_loop args refH
      [.Literal "Hello ", .Argument "name", .Literal "!"] ctx =
      (.error (.missingArgument "name"), ctx) := by
  simp [render_parts_loop, h]

theorem render_parts_loop_var_missing (args : Args)
    (refH : String → RenderValidationContext → Bool →
      Except RenderTemplateError String × RenderValidationContext)
    (ctx : RenderValidationContext) (h : args "target" = none) :
    render_parts_loop args refH [.VariablePromptReference "target"] ctx =
      (.error (.missingArgument "target"), ctx) := by
  simp [render_parts_loop, h]

/-! Claim theorems. -/

/-- C1: the claim states that every reference resolution — for both
`PromptReference` and `VariablePromptReference` — removes the target from
`visited_prompts` and decrements `current_depth` before returning, on both
success and failure, so that sibling branches may resolve the same prompt.
The code violates this for a *successful* variable reference:
`render_prompt_reference` skips `exit_prompt` when `is_variable_reference`
is true (deferring to a caller that never exits), so the target stays
registered.  Evaluated here: (1) the two-sibling variable-reference
template parses as expected; (2) a successful variable-reference
resolution of `shared` returns with `shared` still in the visited set and
depth still 1; (3) rendering two sibling variable references of `shared`
therefore fails with `CircularReference("shared")` instead of rendering;
(4) the claim's own diamond example with plain references does succeed. -/
theorem c1_variable_reference_exit_skipped :
    parse_template "\x7b\x7bprompt_var:a\x7d\x7d\x7b\x7bprompt_var:b\x7d\x7d" =
      some [.VariablePromptReference "a", .VariablePromptReference "b"] ∧
    render_prompt_reference
      (fun n => if n = "shared" then some ⟨⟨"shared", none, []⟩, "S"⟩ else none)
      (fun n => if n = "a" ∨ n = "b" then some "shared" else none)
      (MAX_NESTING_DEPTH + 1) "shared" ⟨[], 0⟩ true =
      (.ok "S", ⟨["shared"], 1⟩) ∧
    render [.VariablePromptReference "a", .VariablePromptReference "b"]
      (fun n => if n = "a" ∨ n = "b" then some "shared" else none)
      (fun n => if n = "shared" then some ⟨⟨"shared", none, []⟩, "S"⟩ else none) =
      .error (.circularReference "shared") ∧
    render [.PromptReference "x", .PromptReference "y"] (fun _ => none)
      (fun n =>
        if n = "x" then some ⟨⟨"x", none, []⟩, "\x7b\x7bprompt:shared\x7d\x7d"⟩
        else if n = "y" then some ⟨⟨"y", none, []⟩, "\x7b\x7bprompt:shared\x7d\x7d"⟩
        else if n = "shared" then some ⟨⟨"shared", none, []⟩, "S"⟩
        else none) = .ok "SS" :=
  ⟨rfl, rfl, rfl, rfl⟩

/-- C2: the maximum nesting depth is the fixed constant 3;
`enter_prompt` rejects a resolution exactly when `current_depth` has
reached `MAX_NESTING_DEPTH` (checked before the prompt is fetched);
rendering the head of a stored chain needing exactly 3 nested resolutions
(`c2 → c3 → c4`) succeeds, while the head of a 5-prompt chain
(4 nested resolutions, `c1 → c2 → c3 → c4`) fails with the
`MaxDepthExceeded` cause wrapped by the reference chain that produced
it. -/
theorem c2_max_nesting_depth :
    MAX_NESTING_DEPTH = 3 ∧
    (∀ (ctx : RenderValidationContext) (name : String),
      name ∉ ctx.visited_prompts → MAX_NESTING_DEPTH ≤ ctx.current_depth →
        enter_prompt ctx name = .error .maxDepthExceeded) ∧
    (∀ (ctx : RenderValidationContext) (name : String),
      name ∉ ctx.visited_prompts → ctx.current_depth < MAX_NESTING_DEPTH →
        enter_prompt ctx name =
          .ok ⟨name :: ctx.visited_prompts, ctx.current_depth + 1⟩) ∧
    render [.Literal "L0 ", .PromptReference "c2"] (fun _ => none)
      (fun n =>
        if n = "c1" then some ⟨⟨"c1", none, []⟩, "L1 \x7b\x7bprompt:c2\x7d\x7d"⟩
        else if n = "c2" then some ⟨⟨"c2", none, []⟩, "L2 \x7b\x7bprompt:c3\x7d\x7d"⟩
        else if n = "c3" then some ⟨⟨"c3", none, []⟩, "L3 \x7b\x7bprompt:c4\x7d\x7d"⟩
        else if n = "c4" then some ⟨⟨"c4", none, []⟩, "L4"⟩
        else none) = .ok "L0 L2 L3 L4" ∧
    render [.Literal "L0 ", .PromptReference "c1"] (fun _ => none)
      (fun n =>
        if n = "c1" then some ⟨⟨"c1", none, []⟩, "L1 \x7b\x7bprompt:c2\x7d\x7d"⟩
        else if n = "c2" then some ⟨⟨"c2", none, []⟩, "L2 \x7b\x7bprompt:c3\x7d\x7d"⟩
        else if n = "c3" then some ⟨⟨"c3", none, []⟩, "L3 \x7b\x7bprompt:c4\x7d\x7d"⟩
        else if n = "c4" then some ⟨⟨"c4", none, []⟩, "L4"⟩
        else none) =
      .error (.renderFailed "c1" (.renderFailed "c2"
        (.renderFailed "c3" .maxDepthExceeded))) :=
  ⟨rfl, enter_prompt_depth_exceeded, enter_prompt_below_depth, rfl, rfl⟩

/-- Witness for C2: the depth-guard conjuncts evaluated at concrete
contexts. -/
theorem c2_max_nesting_depth_witness :
    enter_prompt ⟨["a"], 3⟩ "z" = .error .maxDepthExceeded ∧
    enter_prompt ⟨["a"], 1⟩ "z" = .ok ⟨["z", "a"], 2⟩ :=
  ⟨c2_max_nesting_depth.2.1 ⟨["a"], 3⟩ "z" (by decide) (by decide),
   c2_max_nesting_depth.2.2.1 ⟨["a"], 1⟩ "z" (by decide) (by decide)⟩

/-- C3: a reference resolution whose target is already in
`visited_prompts` fails with `CircularReference(target)` — both at the
level of `enter_prompt` and of `render_prompt_reference` (any fuel, any
reference kind); concretely, with stored prompts
`a` = `"\x7b\x7bprompt:b\x7d\x7d"` and `b` = `"\x7b\x7bprompt:a\x7d\x7d"`,
rendering either prompt's template fails with the `CircularReference`
cause (wrapped by the reference chain that produced it). -/
theorem c3_circular_reference :
    (∀ (ctx : RenderValidationContext) (name : String),
      name ∈ ctx.visited_prompts →
        enter_prompt ctx name = .error (.circularReference name)) ∧
    (∀ (storage : Storage) (args : Args) (fuel : Nat) (name : String)
      (ctx : RenderValidationContext) (is_var : Bool),
      name ∈ ctx.visited_prompts →
        render_prompt_reference storage args fuel name ctx is_var =
          (.error (.circularReference name), ctx)) ∧
    parse_template "\x7b\x7bprompt:b\x7d\x7d" = some [.PromptReference "b"] ∧
    render [.PromptReference "b"] (fun _ => none)
      (fun n =>
        if n = "a" then some ⟨⟨"a", none, []⟩, "\x7b\x7bprompt:b\x7d\x7d"⟩
        else if n = "b" then some ⟨⟨"b", none, []⟩, "\x7b\x7bprompt:a\x7d\x7d"⟩
        else none) =
      .error (.renderFailed "b" (.renderFailed "a" (.circularReference "b"))) ∧
    render [.PromptReference "a"] (fun _ => none)
      (fun n =>
        if n = "a" then some ⟨⟨"a", none, []⟩, "\x7b\x7bprompt:b\x7d\x7d"⟩
        else if n = "b" then some ⟨⟨"b", none, []⟩, "\x7b\x7bprompt:a\x7d\x7d"⟩
        else none) =
      .error (.renderFailed "a" (.renderFailed "b" (.circularReference "a"))) :=
  ⟨enter_prompt_visited, render_prompt_reference_visited, rfl, rfl, rfl⟩

/-- Witness for C3: the universally quantified conjuncts evaluated at a
concrete context with the target already on the path. -/
theorem c3_circular_reference_witness :
    enter_prompt ⟨["x"], 1⟩ "x" = .error (.circularReference "x") ∧
    render_prompt_reference (fun _ => none) (fun _ => none) 0 "x" ⟨["x"], 1⟩
      false = (.error (.circularReference "x"), ⟨["x"], 1⟩) :=
  ⟨c3_circular_reference.1 ⟨["x"], 1⟩ "x" (by decide),
   c3_circular_reference.2.1 (fun _ => none) (fun _ => none) 0 "x" ⟨["x"], 1⟩
     false (by decide)⟩

/-- C4: `parse_template` consumes its entire input or fails.  The empty
string parses to the empty part sequence; any input that is `"\x7b\x7b"`
(or `"\x7b\x7b\x7b\x7b"`) followed by identifier characters only — an
argument/reference (or escaped literal) missing its closing braces — is
rejected for every such tail; `"Hello \x7b\x7bname"` (unterminated
construct after a literal), `"\x7b\x7b\x7d\x7d"` (empty identifier) and a
65-character identifier are rejected rather than degraded to literal
text. -/
theorem c4_parse_total_consumption :
    parse_template "" = some [] ∧
    (∀ t : List Char, t.all isIdentChar = true →
      parse_template ⟨'\x7b' :: '\x7b' :: t⟩ = none) ∧
    (∀ t : List Char, t.all isIdentChar = true →
      parse_template ⟨'\x7b' :: '\x7b' :: '\x7b' :: '\x7b' :: t⟩ = none) ∧
    parse_template "Hello \x7b\x7bname" = none ∧
    parse_template "\x7b\x7b\x7d\x7d" = none ∧
    parse_template ⟨'\x7b' :: '\x7b' :: (List.replicate 65 'a' ++ ['\x7d', '\x7d'])⟩ =
      none :=
  ⟨rfl, fun _ ht => parse_template_unclosed_arg ht,
   fun _ ht => parse_template_unclosed_escaped ht, rfl, rfl, by decide⟩

/-- Witness for C4: the universally quantified conjuncts evaluated at
concrete identifier tails. -/
theorem c4_parse_total_consumption_witness :
    parse_template ⟨'\x7b' :: '\x7b' :: "name".data⟩ = none ∧
    parse_template ⟨'\x7b' :: '\x7b' :: '\x7b' :: '\x7b' :: "hello".data⟩ = none :=
  ⟨c4_parse_total_consumption.2.1 "name".data (by decide),
   c4_parse_total_consumption.2.2.1 "hello".data (by decide)⟩

/-- C5: an escaped literal takes exactly the shortest span up to the next
`"\x7d\x7d\x7d\x7d"`, without the surrounding braces (first conjunct,
for every inner span `t` whose first terminator occurrence is right after
it and every remainder `r`); `"\x7b\x7b\x7b\x7bx\x7d\x7d\x7d\x7d"` parses
to `Literal "x"`, and rendering that part yields `"x"` verbatim for every
arguments map and storage (no substitution). -/
theorem c5_escaped_literal_verbatim :
    (∀ t r : List Char,
      (∀ j, j < t.length → ("\x7d\x7d\x7d\x7d".data).isPrefixOf
        ((t ++ ("\x7d\x7d\x7d\x7d".data ++ r)).drop j) = false) →
      parse_escaped_literal
        ("\x7b\x7b\x7b\x7b".data ++ (t ++ ("\x7d\x7d\x7d\x7d".data ++ r))) =
        some (t, r)) ∧
    parse_template "\x7b\x7b\x7b\x7bx\x7d\x7d\x7d\x7d" = some [.Literal "x"] ∧
    (∀ (args : Args) (storage : Storage),
      render [.Literal "x"] args storage = .ok "x") :=
  ⟨parse_escaped_literal_shortest_span, rfl, fun _ _ => rfl⟩

/-- Witness for C5: the shortest-span conjunct at span `"x"` and the
render conjunct at empty arguments and storage. -/
theorem c5_escaped_literal_verbatim_witness :
    parse_escaped_literal
      ("\x7b\x7b\x7b\x7b".data ++ (['x'] ++ ("\x7d\x7d\x7d\x7d".data ++ []))) =
      some (['x'], []) ∧
    render [.Literal "x"] (fun _ => none) (fun _ => none) = .ok "x" :=
  ⟨c5_escaped_literal_verbatim.1 ['x'] [] (by decide),
   c5_escaped_literal_verbatim.2.2 (fun _ => none) (fun _ => none)⟩

/-- C6: rendering an `Argument(name)` part appends the value mapped to
`name` when present and fails with `MissingArgument(name)` when absent:
`"Hello \x7b\x7bname\x7d\x7d!"` parses to literal/argument/literal; for
every arguments map carrying `name ↦ v` the render is
`"Hello " ++ v ++ "!"`; for every map lacking `name` it is
`MissingArgument("name")`; with `name ↦ "World"` it is
`"Hello World!"`. -/
theorem c6_argument_substitution :
    parse_template "Hello \x7b\x7bname\x7d\x7d!" =
      some [.Literal "Hello ", .Argument "name", .Literal "!"] ∧
    (∀ (args : Args) (storage : Storage) (v : String), args "name" = some v →
      render [.Literal "Hello ", .Argument "name", .Literal "!"] args storage =
        .ok ("Hello " ++ v ++ "!")) ∧
    (∀ (args : Args) (storage : Storage), args "name" = none →
      render [.Literal "Hello ", .Argument "name", .Literal "!"] args storage =
        .error (.missingArgument "name")) ∧
    render [.Literal "Hello ", .Argument "name", .Literal "!"]
      (fun n => if n = "name" then some "World" else none) (fun _ => none) =
      .ok "Hello World!" := by
  refine ⟨rfl, ?_, ?_, rfl⟩
  · intro args storage v h
    exact congrArg Prod.fst (render_parts_loop_hello args
      (render_prompt_reference storage args (MAX_NESTING_DEPTH + 1))
      RenderValidationContext.new v h)
  · intro args storage h
    exact congrArg Prod.fst (render_parts_loop_hello_missing args
      (render_prompt_reference storage args (MAX_NESTING_DEPTH + 1))
      RenderValidationContext.new h)

/-- Witness for C6: the two quantified conjuncts at concrete argument
maps. -/
theorem c6_argument_substitution_witness :
    render [.Literal "Hello ", .Argument "name", .Literal "!"]
      (fun n => if n = "name" then some "Bob" else none) (fun _ => none) =
      .ok ("Hello " ++ "Bob" ++ "!") ∧
    render [.Literal "Hello ", .Argument "name", .Literal "!"]
      (fun _ => none) (fun _ => none) = .error (.missingArgument "name") :=
  ⟨c6_argument_substitution.2.1
      (fun n => if n = "name" then some "Bob" else none) (fun _ => none) "Bob" rfl,
   c6_argument_substitution.2.2.1 (fun _ => none) (fun _ => none) rfl⟩

/-- C7: a `VariablePromptReference(name)` part first looks `name` up in
the arguments map — failing with `MissingArgument(name)` for every map
lacking it — and on success resolves the looked-up value as the target
prompt name under the same validation protocol:
`"\x7b\x7bprompt_var:target\x7d\x7d"` with `target ↦ "greeting"` and
stored prompt `greeting` = `"Hi!"` renders to `"Hi!"`. -/
theorem c7_variable_reference_lookup :
    parse_template "\x7b\x7bprompt_var:target\x7d\x7d" =
      some [.VariablePromptReference "target"] ∧
    (∀ (args : Args) (storage : Storage), args "target" = none →
      render [.VariablePromptReference "target"] args storage =
        .error (.missingArgument "target")) ∧
    render [.VariablePromptReference "target"]
      (fun n => if n = "target" then some "greeting" else none)
      (fun n => if n = "greeting" then some ⟨⟨"greeting", none, []⟩, "Hi!"⟩
        else none) = .ok "Hi!" := by
  refine ⟨rfl, ?_, rfl⟩
  intro args storage h
  exact congrArg Prod.fst (render_parts_loop_var_missing args
    (render_prompt_reference storage args (MAX_NESTING_DEPTH + 1))
    RenderValidationContext.new h)

/-- Witness for C7: the missing-argument conjunct at the empty arguments
map. -/
theorem c7_variable_reference_lookup_witness :
    render [.VariablePromptReference "target"] (fun _ => none) (fun _ => none) =
      .error (.missingArgument "target") :=
  c7_variable_reference_lookup.2.1 (fun _ => none) (fun _ => none) rfl

/-- C8: every top-level `render` call constructs a fresh
`RenderValidationContext` (empty visited set, depth 0) and is a pure
function of its template parts, arguments and storage: in this embedding
`render parts args storage` is definitionally `render_internal` started
from `⟨[], 0⟩`, so two calls on the same inputs are the same value and no
render can be influenced by renders performed before it (there is no other
state for a previous call to leave behind). -/
theorem c8_fresh_context_per_render :
    RenderValidationContext.new = ⟨[], 0⟩ ∧
    (∀ (parts : List PromptTemplatePart) (args : Args) (storage : Storage),
      render parts args storage =
        (render_internal storage args (MAX_NESTING_DEPTH + 1) parts ⟨[], 0⟩).1) :=
  ⟨rfl, fun _ _ _ => rfl⟩

/-- C9: `FileStorage::get_prompt` returns the `PromptNotFound` error — and
in particular never a success value — whenever no file `<name>.md` exists
under the base path, for every deserializer, base path, file system and
name. -/
theorem c9_get_prompt_not_found
    (deser : String → Option (PromptMetadata × String)) (st : FileStorage)
    (fs : FileSys) (name : String)
    (h : fs (prompt_file_path st name) = none) :
    FileStorage.get_prompt deser st fs name =
      .error (.promptNotFound (prompt_file_path st name)) := by
  simp [FileStorage.get_prompt, h]

/-- Witness for C9: an empty file system and an arbitrary name. -/
theorem c9_get_prompt_not_found_witness :
    FileStorage.get_prompt (fun _ => none) ⟨"base"⟩ (fun _ => none) "missing" =
      .error (.promptNotFound (prompt_file_path ⟨"base"⟩ "missing")) :=
  c9_get_prompt_not_found (fun _ => none) ⟨"base"⟩ (fun _ => none) "missing" rfl

/-- C10: the `FileStorage` save/get round-trip trims leading whitespace:
for any serializer/deserializer pair satisfying the frontmatter round-trip
contract (deserializing a serialization returns the metadata unchanged and
a raw content equal to the saved content up to leading whitespace — the
behaviour of the external `serde_frontmatter` crate, which re-separates
frontmatter from body), `get_prompt` after `save_prompt` returns the saved
metadata and the saved content with leading whitespace removed; and the
content returned by `get_prompt` never begins with a whitespace character,
since it is produced by `trim_start`. -/
theorem c10_save_get_round_trip :
    (∀ (ser : PromptMetadata → String → String)
      (deser : String → Option (PromptMetadata × String))
      (st : FileStorage) (fs : FileSys) (p : Prompt) (raw : String),
      deser (ser p.metadata p.content) = some (p.metadata, raw) →
      rust_trim_start raw = rust_trim_start p.content →
      FileStorage.get_prompt deser st (FileStorage.save_prompt ser st fs p)
        p.metadata.name = .ok ⟨p.metadata, rust_trim_start p.content⟩) ∧
    (∀ (s : String) (c : Char) (cs : List Char),
      (rust_trim_start s).data = c :: cs → c.isWhitespace = false) := by
  constructor
  · intro ser deser st fs p raw h1 h2
    have hfs : FileStorage.save_prompt ser st fs p
        (prompt_file_path st p.metadata.name) = some (ser p.metadata p.content) := by
      simp [FileStorage.save_prompt]
    simp [FileStorage.get_prompt, hfs, h1, h2]
  · intro s c cs h
    exact dropWhile_head_not
      (show s.data.dropWhile Char.isWhitespace = c :: cs from h)

/-- Witness for C10: a concrete round-tripping pair (identity body, fixed
metadata) and a prompt whose content has leading whitespace. -/
theorem c10_save_get_round_trip_witness :
    FileStorage.get_prompt (fun s => some (⟨"p", none, []⟩, s)) ⟨"b"⟩
      (FileStorage.save_prompt (fun _ c => c) ⟨"b"⟩ (fun _ => none)
        ⟨⟨"p", none, []⟩, " hi"⟩) "p" =
      .ok ⟨⟨"p", none, []⟩, rust_trim_start " hi"⟩ ∧
    Char.isWhitespace 'h' = false :=
  ⟨c10_save_get_round_trip.1 (fun _ c => c) (fun s => some (⟨"p", none, []⟩, s))
      ⟨"b"⟩ (fun _ => none) ⟨⟨"p", none, []⟩, " hi"⟩ " hi" rfl rfl,
   c10_save_get_round_trip.2 " hi" 'h' ['i'] rfl⟩

end Pren
